import Mathlib

/-!
Shallow embedding of `posthog/tasks/exports/image_exporter.py`.

The module exports an `ExportedAsset` (an insight or a dashboard) to a PNG by
driving a headless Chrome session: `export_image` gates on the export format,
`_export_to_png` selects the render target and owns the temporary image file,
and `_screenshot_asset` navigates, waits, measures, resizes and captures.

The embedding makes the environment explicit: an `Env` records which external
actions succeed (driver start, navigation, waits, scripts, screenshot, storage)
together with the DOM measurements the injected scripts would observe, and the
pipeline functions thread a `St` that tracks the temporary file, the browser
session, and an ordered trace of the externally visible actions.
-/

namespace ImageExporter

/-- Exceptions the pipeline can raise, one constructor per raising site. -/
inductive Err where
  | siteUrlNotSet
  | missingDashboardOrInsight
  | driverUnavailable
  | navError
  | markerTimeout
  | heightScriptError
  | widthScriptError
  | settleScriptError
  | finalHeightScriptError
  | captureError
  | saveContentError
  | unsupportedFormat
  deriving DecidableEq

/-- A value returned by `driver.execute_script` to Python, after the JSON
wire conversion Selenium performs: a JS number with no fractional part decodes
to a Python `int`, any other finite number decodes to a Python `float`, and
`undefined`/`null` decode to `None`. -/
inductive PyVal where
  | none
  | int (n : ℤ)
  | float (q : ℚ)
  deriving DecidableEq

/-- Externally visible actions of the pipeline, in the order performed. -/
inductive Event where
  | enterExportToPng
  | enterScreenshotAsset
  | getDriverCall
  | setWindowSize (w h : ℚ)
  | navigate (url : String)
  | waitMarker (sel : String)
  | saveScreenshot (path : String)
  | attachScreenshot
  | attachLogs
  | captureException
  | sleep (ms : ℕ)
  | quit
  | processQuery
  | saveContent
  | removeTmpFile
  deriving DecidableEq

/-- Observable state threaded through the pipeline: whether the temporary
image file currently exists on disk, whether a browser session was acquired,
how many times `driver.quit()` has been invoked, and the action trace. -/
structure St where
  tmpFileExists : Bool
  driverAcquired : Bool
  quitCount : ℕ
  events : List Event
  deriving DecidableEq

/-- The state at the start of an export invocation. -/
def initSt : St := ⟨false, false, 0, []⟩

/-- Append one externally visible action to the trace. -/
def St.log (s : St) (e : Event) : St :=
  { s with events := s.events ++ [e] }

/-- The `finally` block's `driver.quit()`. -/
def St.quit (s : St) : St :=
  { s with quitCount := s.quitCount + 1, events := s.events ++ [Event.quit] }

/-- The `os.remove(image_path)` performed when the file exists
(`if image_path and os.path.exists(image_path): os.remove(image_path)`). -/
def St.cleanupTmp (s : St) : St :=
  if s.tmpFileExists then
    { s with tmpFileExists := false, events := s.events ++ [Event.removeTmpFile] }
  else s

/-- `HEIGHT_OFFSET = 85`, the manually determined compensation added to every
measured height before `set_window_size`. -/
def HEIGHT_OFFSET : ℤ := 85

/-- The height-measuring script (run both before and after the settle delay):
`const element = document.querySelector(viz containers); if (element) return
Math.max(rect.height, document.body.scrollHeight); return
document.body.scrollHeight;`. `viz` is the bounding-rect height of the
visualization container when one is present. -/
def measureHeight (viz : Option ℚ) (scrollHeight : ℤ) : ℚ :=
  match viz with
  | some rectHeight => max rectHeight (scrollHeight : ℚ)
  | none => (scrollHeight : ℚ)

/-- The width-hint script: `tableElement = document.querySelector('table');
if (tableElement) return tableElement.offsetWidth * 1.5;` — no explicit
return otherwise, so `undefined`. `offsetWidth` is an integer, so the JS
result `offsetWidth * 1.5` is a whole number exactly when `offsetWidth` is
even, and the JSON wire conversion hands Python an `int` in that case and a
`float` otherwise; with no table Python receives `None`. -/
def widthScriptResult (table : Option ℤ) : PyVal :=
  match table with
  | Option.none => PyVal.none
  | some offsetWidth =>
      let hint : ℚ := (offsetWidth : ℚ) * (3 / 2)
      if hint.den = 1 then PyVal.int hint.num else PyVal.float hint

/-- The width post-processing in `_screenshot_asset`:
`if isinstance(width, int): width = max(int(screenshot_width), min(1800,
width or screenshot_width))` and `else: width = screenshot_width`.
Python's `width or screenshot_width` yields `screenshot_width` when the
int is `0`. -/
def computeWidth (screenshot_width : ℤ) (width : PyVal) : ℤ :=
  match width with
  | PyVal.int n => max screenshot_width (min 1800 (if n = 0 then screenshot_width else n))
  | _ => screenshot_width

/-- Modelled from the spec's words, for refinement comparison only (the code
is `computeWidth`): the spec says the viewport width is set to
`max(requested_width, min(1800, width_hint or requested_width))` whenever the
width hint "resolves to a number", with any other result falling back to the
requested width. A `float` is a number, so the spec formula applies to it. -/
def specComputeWidth (screenshot_width : ℤ) (width : PyVal) : ℚ :=
  match width with
  | PyVal.int n =>
      max (screenshot_width : ℚ) (min 1800 (if n = 0 then (screenshot_width : ℚ) else (n : ℚ)))
  | PyVal.float q =>
      max (screenshot_width : ℚ) (min 1800 (if q = 0 then (screenshot_width : ℚ) else q))
  | PyVal.none => (screenshot_width : ℚ)

/-- Which external actions succeed during one export invocation, together
with the DOM state the injected scripts observe. The `Ok` flags model the
fallibility of each driver call; the DOM fields (`viz`, `scrollHeight`,
`table` and the post-settle `viz2`, `scrollHeight2`) are what the scripts
would measure. `markerAppears` / `spinnerClears` say whether the bounded
20-unit waits succeed within their bound. -/
structure Env where
  siteUrlSet : Bool
  getDriverOk : Bool
  navOk : Bool
  markerAppears : Bool
  spinnerClears : Bool
  spinnerDiagScreenshotOk : Bool
  heightScriptOk : Bool
  widthScriptOk : Bool
  settleScriptOk : Bool
  finalHeightScriptOk : Bool
  captureOk : Bool
  saveContentOk : Bool
  diagGetLogOk : Bool
  diagScreenshotOk : Bool
  viz : Option ℚ
  scrollHeight : ℤ
  viz2 : Option ℚ
  scrollHeight2 : ℤ
  table : Option ℤ
  deriving DecidableEq

/-- The body of the `try` block of `_screenshot_asset`, entered after
`get_driver()` succeeded: initial `set_window_size(screenshot_width, 600)`,
`driver.get`, the bounded marker wait, the bounded spinner wait whose
`TimeoutException` is absorbed locally (with a best-effort diagnostic
screenshot whose own failure is swallowed), the height measurement, the width
hint and clamp, the provisional resize, the 500-unit settle delay, the
re-measurement, the final resize and `driver.save_screenshot`.
Returns `none` on success, `some e` when the stage raising `e` aborts. -/
def screenshotBody (env : Env) (image_path url_to_render : String)
    (screenshot_width : ℤ) (wait_for_css_selector : String) (s : St) : Option Err × St :=
  let s := s.log (Event.setWindowSize (screenshot_width : ℚ) 600)
  let s := s.log (Event.navigate url_to_render)
  if env.navOk then
    let s := s.log (Event.waitMarker wait_for_css_selector)
    if env.markerAppears then
      let s :=
        if env.spinnerClears then s
        else
          let s :=
            if env.spinnerDiagScreenshotOk then
              let s := s.log (Event.saveScreenshot image_path)
              let s := { s with tmpFileExists := true }
              s.log Event.attachScreenshot
            else s
          s.log Event.captureException
      if env.heightScriptOk then
        let height := measureHeight env.viz env.scrollHeight
        if env.widthScriptOk then
          let width := computeWidth screenshot_width (widthScriptResult env.table)
          let s := s.log (Event.setWindowSize (width : ℚ) (height + (HEIGHT_OFFSET : ℚ)))
          if env.settleScriptOk then
            let s := s.log (Event.sleep 500)
            if env.finalHeightScriptOk then
              let final_height := measureHeight env.viz2 env.scrollHeight2
              let s := s.log (Event.setWindowSize (width : ℚ) (final_height + (HEIGHT_OFFSET : ℚ)))
              let s := s.log (Event.saveScreenshot image_path)
              if env.captureOk then
                (none, { s with tmpFileExists := true })
              else (some Err.captureError, s)
            else (some Err.finalHeightScriptError, s)
          else (some Err.settleScriptError, s)
        else (some Err.widthScriptError, s)
      else (some Err.heightScriptError, s)
    else (some Err.markerTimeout, s)
  else (some Err.navError, s)

/-- The `except` block of `_screenshot_asset`, entered with a live driver:
attempts to attach the browser console log and a final screenshot, each
attempt individually wrapped so its own failure is silently discarded, then
reports the original exception. Never raises. -/
def failureDiagnostics (env : Env) (image_path : String) (s : St) : St :=
  let s := if env.diagGetLogOk then s.log Event.attachLogs else s
  let s :=
    if env.diagScreenshotOk then
      let s := s.log (Event.saveScreenshot image_path)
      let s := { s with tmpFileExists := true }
      s.log Event.attachScreenshot
    else s
  s.log Event.captureException

/-- `_screenshot_asset`: acquire the driver inside the `try`; on any
exception from the body run the failure diagnostics (skipped when the driver
was never acquired) and re-raise the same exception; the `finally` block
calls `driver.quit()` exactly when a session exists. -/
def screenshotAsset (env : Env) (image_path url_to_render : String)
    (screenshot_width : ℤ) (wait_for_css_selector : String) (s : St) : Option Err × St :=
  let s := s.log Event.enterScreenshotAsset
  let s := s.log Event.getDriverCall
  if env.getDriverOk then
    let s := { s with driverAcquired := true }
    match screenshotBody env image_path url_to_render screenshot_width wait_for_css_selector s with
    | (none, s) => (none, s.quit)
    | (some e, s) => (some e, (failureDiagnostics env image_path s).quit)
  else
    (some Err.driverUnavailable, s.log Event.captureException)

/-- The asset handed to the export pipeline: `insight` and `dashboard` are
nullable foreign keys (modelled by the referenced id), `export_format` a
string. -/
structure ExportedAsset where
  insight : Option ℕ
  dashboard : Option ℕ
  export_format : String
  deriving DecidableEq

/-- The render target `_export_to_png` derives from the asset. -/
structure RenderTarget where
  url_to_render : String
  wait_for_css_selector : String
  screenshot_width : ℤ
  deriving DecidableEq

/-- The branch selection of `_export_to_png` (the `if exported_asset.insight
is not None / elif exported_asset.dashboard is not None / else raise`
cascade); `none` is the `raise Exception("Export is missing required
dashboard or insight ID")` branch. The URL is the path passed to
`absolute_uri`. -/
def chooseTarget (exported_asset : ExportedAsset) (access_token : String) : Option RenderTarget :=
  if exported_asset.insight.isSome then
    some ⟨"/exporter?token=" ++ access_token ++ "&legend", ".ExportedInsight", 800⟩
  else if exported_asset.dashboard.isSome then
    some ⟨"/exporter?token=" ++ access_token, ".InsightCard", 1920⟩
  else
    none

/-- The continuation of `_export_to_png` around the `_screenshot_asset`
call: on success, read the file, hand the bytes to `save_content` and
`os.remove` the file; on any exception (from the screenshot or from
`save_content`), the `except` block removes the temporary file when it
exists and re-raises the same exception. -/
def afterScreenshot (env : Env) : Option Err × St → Option Err × St
  | (Option.none, s) =>
    let s := s.log Event.saveContent
    if env.saveContentOk then
      (Option.none, s.cleanupTmp)
    else
      (some Err.saveContentError, s.cleanupTmp)
  | (some e, s) => (some e, s.cleanupTmp)

/-- `_export_to_png`: checks `settings.SITE_URL`, allocates the temporary
image path, selects the render target, runs `_screenshot_asset`, then reads
the file, hands the bytes to `save_content` and removes the file; the
`except` block removes the temporary file when it exists and re-raises. -/
def exportToPng (env : Env) (exported_asset : ExportedAsset)
    (access_token image_path : String) (s : St) : Option Err × St :=
  let s := s.log Event.enterExportToPng
  if env.siteUrlSet then
    match chooseTarget exported_asset access_token with
    | some target =>
      afterScreenshot env (screenshotAsset env image_path target.url_to_render
        target.screenshot_width target.wait_for_css_selector s)
    | none => (some Err.missingDashboardOrInsight, s)
  else
    (some Err.siteUrlNotSet, s)

/-- `export_image`: refreshes the insight's query results when an insight is
set (external collaborator, modelled as an opaque succeeding action), then
dispatches on the export format — only `"image/png"` enters `_export_to_png`,
anything else raises `NotImplementedError`. -/
def exportImage (env : Env) (exported_asset : ExportedAsset)
    (access_token image_path : String) : Option Err × St :=
  let s := initSt
  let s := if exported_asset.insight.isSome then s.log Event.processQuery else s
  if exported_asset.export_format = "image/png" then
    exportToPng env exported_asset access_token image_path s
  else
    (some Err.unsupportedFormat, s)

/-- All external actions succeed and both waits finish within their bounds;
parametrized by the DOM measurements. -/
def happyEnv (viz viz2 : Option ℚ) (scrollHeight scrollHeight2 : ℤ) (table : Option ℤ) : Env :=
  ⟨true, true, true, true, true, true, true, true, true, true, true, true, true, true,
    viz, scrollHeight, viz2, scrollHeight2, table⟩

/-- As `happyEnv`, except the bounded spinner wait expires. -/
def spinnerTimeoutEnv (viz viz2 : Option ℚ) (scrollHeight scrollHeight2 : ℤ)
    (table : Option ℤ) : Env :=
  ⟨true, true, true, true, false, true, true, true, true, true, true, true, true, true,
    viz, scrollHeight, viz2, scrollHeight2, table⟩

/-- The same environment with the two failure-diagnostic outcomes replaced. -/
def withDiag (env : Env) (logOk shotOk : Bool) : Env :=
  { env with diagGetLogOk := logOk, diagScreenshotOk := shotOk }

/-- The first raising stage of the `try` body of `_screenshot_asset`,
read off the environment alone (the raised error does not depend on the
threaded state). -/
def bodyErr (env : Env) : Option Err :=
  if env.navOk then
    if env.markerAppears then
      if env.heightScriptOk then
        if env.widthScriptOk then
          if env.settleScriptOk then
            if env.finalHeightScriptOk then
              if env.captureOk then Option.none else some Err.captureError
            else some Err.finalHeightScriptError
          else some Err.settleScriptError
        else some Err.widthScriptError
      else some Err.heightScriptError
    else some Err.markerTimeout
  else some Err.navError

/-- The width argument of the last `set_window_size` call in a trace. -/
def lastSetWidth : List Event → Option ℚ
  | [] => Option.none
  | e :: rest =>
    match lastSetWidth rest with
    | some w => some w
    | Option.none =>
      match e with
      | Event.setWindowSize w _ => some w
      | _ => Option.none

/-! ### Helper lemmas -/

theorem cleanupTmp_tmpFileExists (s : St) : s.cleanupTmp.tmpFileExists = false := by
  unfold St.cleanupTmp
  split_ifs <;> simp_all

theorem cleanupTmp_driverAcquired (s : St) : s.cleanupTmp.driverAcquired = s.driverAcquired := by
  unfold St.cleanupTmp
  split_ifs <;> simp_all

theorem cleanupTmp_quitCount (s : St) : s.cleanupTmp.quitCount = s.quitCount := by
  unfold St.cleanupTmp
  split_ifs <;> simp_all

theorem screenshotBody_driverAcquired (env : Env) (p u : String) (w : ℤ) (sel : String)
    (s : St) : (screenshotBody env p u w sel s).2.driverAcquired = s.driverAcquired := by
  unfold screenshotBody
  split_ifs <;> simp [St.log]

theorem screenshotBody_quitCount (env : Env) (p u : String) (w : ℤ) (sel : String)
    (s : St) : (screenshotBody env p u w sel s).2.quitCount = s.quitCount := by
  unfold screenshotBody
  split_ifs <;> simp [St.log]

theorem failureDiagnostics_driverAcquired (env : Env) (p : String) (s : St) :
    (failureDiagnostics env p s).driverAcquired = s.driverAcquired := by
  unfold failureDiagnostics
  split_ifs <;> simp [St.log]

theorem failureDiagnostics_quitCount (env : Env) (p : String) (s : St) :
    (failureDiagnostics env p s).quitCount = s.quitCount := by
  unfold failureDiagnostics
  split_ifs <;> simp [St.log]

theorem screenshotAsset_quitCount (env : Env) (p u : String) (w : ℤ) (sel : String) (s : St) :
    (screenshotAsset env p u w sel s).2.quitCount =
      (if env.getDriverOk then s.quitCount + 1 else s.quitCount) := by
  unfold screenshotAsset
  cases hg : env.getDriverOk with
  | false => simp [St.log]
  | true =>
    simp only [if_true]
    rcases hb : screenshotBody env p u w sel
        { (s.log Event.enterScreenshotAsset).log Event.getDriverCall with driverAcquired := true }
      with ⟨r, s1⟩
    have hq := screenshotBody_quitCount env p u w sel
      { (s.log Event.enterScreenshotAsset).log Event.getDriverCall with driverAcquired := true }
    rw [hb] at hq
    simp [St.log] at hq
    cases r <;> simp [St.quit, failureDiagnostics_quitCount, hq]

theorem screenshotAsset_driverAcquired (env : Env) (p u : String) (w : ℤ) (sel : String)
    (s : St) :
    (screenshotAsset env p u w sel s).2.driverAcquired =
      (s.driverAcquired || env.getDriverOk) := by
  unfold screenshotAsset
  cases hg : env.getDriverOk with
  | false => simp [St.log]
  | true =>
    simp only [if_true]
    rcases hb : screenshotBody env p u w sel
        { (s.log Event.enterScreenshotAsset).log Event.getDriverCall with driverAcquired := true }
      with ⟨r, s1⟩
    have hd := screenshotBody_driverAcquired env p u w sel
      { (s.log Event.enterScreenshotAsset).log Event.getDriverCall with driverAcquired := true }
    rw [hb] at hd
    simp [St.log] at hd
    cases r <;> simp [St.quit, failureDiagnostics_driverAcquired, hd]

theorem afterScreenshot_tmpFileExists (env : Env) (res : Option Err × St) :
    (afterScreenshot env res).2.tmpFileExists = false := by
  rcases res with ⟨r, s⟩
  cases r <;> simp [afterScreenshot, St.log, cleanupTmp_tmpFileExists]
  split_ifs <;> simp [cleanupTmp_tmpFileExists]

theorem afterScreenshot_quitCount (env : Env) (res : Option Err × St) :
    (afterScreenshot env res).2.quitCount = res.2.quitCount := by
  rcases res with ⟨r, s⟩
  cases r <;> simp [afterScreenshot, St.log, cleanupTmp_quitCount]
  split_ifs <;> simp [cleanupTmp_quitCount, St.log]

theorem afterScreenshot_driverAcquired (env : Env) (res : Option Err × St) :
    (afterScreenshot env res).2.driverAcquired = res.2.driverAcquired := by
  rcases res with ⟨r, s⟩
  cases r <;> simp [afterScreenshot, St.log, cleanupTmp_driverAcquired]
  split_ifs <;> simp [cleanupTmp_driverAcquired, St.log]

theorem screenshotBody_fst (env : Env) (p u : String) (w : ℤ) (sel : String) (s : St) :
    (screenshotBody env p u w sel s).1 = bodyErr env := by
  unfold screenshotBody bodyErr
  split_ifs <;> rfl

theorem screenshotAsset_fst (env : Env) (p u : String) (w : ℤ) (sel : String) (s : St) :
    (screenshotAsset env p u w sel s).1 =
      (if env.getDriverOk then bodyErr env else some Err.driverUnavailable) := by
  unfold screenshotAsset
  cases hg : env.getDriverOk with
  | false => simp
  | true =>
    simp only [if_true]
    rcases hb : screenshotBody env p u w sel
        { (s.log Event.enterScreenshotAsset).log Event.getDriverCall with driverAcquired := true }
      with ⟨r, s1⟩
    have hf := screenshotBody_fst env p u w sel
      { (s.log Event.enterScreenshotAsset).log Event.getDriverCall with driverAcquired := true }
    rw [hb] at hf
    cases r <;> simp_all

theorem widthScriptResult_1300 : widthScriptResult (some 1300) = PyVal.int 1950 := by
  unfold widthScriptResult
  norm_num

theorem widthScriptResult_1301 :
    widthScriptResult (some 1301) = PyVal.float ((3903 : ℚ) / 2) := by
  unfold widthScriptResult
  norm_num

/-! ### Claims -/

/-- C1, counterexample: on a dashboard export (requested width 1920, the
width the code itself selects for dashboards) with no table present, the
final viewport width applied before capture is 1920, which is not ≤ 1800 —
the claim's upper bound fails. -/
theorem claim1_counterexample :
    lastSetWidth ((exportToPng (happyEnv Option.none Option.none 600 600 Option.none)
        ⟨Option.none, some 1, "image/png"⟩ "tok" "img.png" initSt).2.events) = some 1920 ∧
    ¬ ((1920 : ℚ) ≤ 1800) := by
  constructor
  · rfl
  · decide

/-- C1, amended: the final applied viewport width is always ≥ the originally
requested width and ≤ max(1800, requested width); the upper bound 1800 holds
for insights (requested 800) but dashboard exports (requested 1920) always
end at exactly the requested 1920. -/
theorem claim1_width_bounds (screenshot_width : ℤ) (w : PyVal) :
    screenshot_width ≤ computeWidth screenshot_width w ∧
    computeWidth screenshot_width w ≤ max 1800 screenshot_width := by
  cases w with
  | int n =>
    simp only [computeWidth]
    refine ⟨le_max_left _ _, max_le (le_max_right _ _) ?_⟩
    exact le_trans (min_le_left _ _) (le_max_left _ _)
  | float q => exact ⟨le_refl _, le_max_right _ _⟩
  | none => exact ⟨le_refl _, le_max_right _ _⟩

/-- C5, counterexample: a table with rendered width 1301 makes the width
hint resolve to the number 1951.5 (a Python `float`), so by the claim the
viewport width should be `max(800, min(1800, 1951.5)) = 1800`; the code's
`isinstance(width, int)` test rejects it and falls back to 800. -/
theorem claim5_counterexample :
    widthScriptResult (some 1301) = PyVal.float ((3903 : ℚ) / 2) ∧
    computeWidth 800 (widthScriptResult (some 1301)) = 800 ∧
    specComputeWidth 800 (widthScriptResult (some 1301)) = 1800 ∧
    ((800 : ℚ) ≠ 1800) := by
  refine ⟨widthScriptResult_1301, ?_, ?_, by norm_num⟩
  · rw [widthScriptResult_1301]
    simp [computeWidth]
  · rw [widthScriptResult_1301]
    simp only [specComputeWidth]
    norm_num [min_def, max_def]

/-- C5, amended: the viewport width is set to
`max(requested_width, min(1800, width_hint or requested_width))` exactly when
the width hint resolves to a Python `int` (the script's 1.5 × offsetWidth is
an int exactly when the table's rendered width is even); any other result — a
non-integral (`float`) hint, or no table present — falls back to exactly the
requested width. -/
theorem claim5_width_hint (screenshot_width : ℤ) (table : Option ℤ) :
    (∀ n : ℤ, widthScriptResult table = PyVal.int n →
      computeWidth screenshot_width (widthScriptResult table) =
        max screenshot_width (min 1800 (if n = 0 then screenshot_width else n))) ∧
    (∀ q : ℚ, widthScriptResult table = PyVal.float q →
      computeWidth screenshot_width (widthScriptResult table) = screenshot_width) ∧
    (widthScriptResult table = PyVal.none →
      computeWidth screenshot_width (widthScriptResult table) = screenshot_width) := by
  refine ⟨?_, ?_, ?_⟩
  · intro n hn
    rw [hn]
    simp [computeWidth]
  · intro q hq
    rw [hq]
    simp [computeWidth]
  · intro hn
    rw [hn]
    simp [computeWidth]

/-- C5 witness: the amended statement evaluated at an even table width
(1300, hint 1950 honored and clamped to 1800), an odd table width (1301,
float hint ignored), and no table. -/
theorem claim5_width_hint_witness :
    computeWidth 800 (widthScriptResult (some 1300)) =
      max 800 (min 1800 (if (1950 : ℤ) = 0 then 800 else 1950)) ∧
    computeWidth 800 (widthScriptResult (some 1301)) = 800 ∧
    computeWidth 800 (widthScriptResult Option.none) = 800 :=
  ⟨(claim5_width_hint 800 (some 1300)).1 1950 (by simp [widthScriptResult_1300]),
   (claim5_width_hint 800 (some 1301)).2.1 ((3903 : ℚ) / 2) (by simp [widthScriptResult_1301]),
   (claim5_width_hint 800 Option.none).2.2 (by simp [widthScriptResult])⟩

/-- C9: the render target is a deterministic function of the request's kind —
an insight export renders `/exporter?token=...&legend` (legend flag present),
waits for `.ExportedInsight` and requests width 800; a dashboard export
renders `/exporter?token=...` (no legend flag), waits for `.InsightCard` and
requests width 1920. -/
theorem claim9_render_target (a : ExportedAsset) (tok : String) :
    (a.insight.isSome = true →
      chooseTarget a tok =
        some ⟨"/exporter?token=" ++ tok ++ "&legend", ".ExportedInsight", 800⟩) ∧
    (a.insight = Option.none → a.dashboard.isSome = true →
      chooseTarget a tok = some ⟨"/exporter?token=" ++ tok, ".InsightCard", 1920⟩) := by
  constructor
  · intro h
    simp [chooseTarget, h]
  · intro h1 h2
    simp [chooseTarget, h1, h2]

/-- C9 witness: the render targets of a concrete insight asset and a
concrete dashboard asset. -/
theorem claim9_render_target_witness :
    chooseTarget ⟨some 1, Option.none, "image/png"⟩ "t" =
      some ⟨"/exporter?token=" ++ "t" ++ "&legend", ".ExportedInsight", 800⟩ ∧
    chooseTarget ⟨Option.none, some 2, "image/png"⟩ "t" =
      some ⟨"/exporter?token=" ++ "t", ".InsightCard", 1920⟩ :=
  ⟨(claim9_render_target ⟨some 1, Option.none, "image/png"⟩ "t").1 (by decide),
   (claim9_render_target ⟨Option.none, some 2, "image/png"⟩ "t").2 rfl (by decide)⟩

/-- C10: an asset with both an insight and a dashboard set takes the insight
branch — the render URL carries the legend flag, the marker is
`.ExportedInsight`, the width 800 — and `_export_to_png` raises no
configuration error (a run in a fully healthy environment succeeds). -/
theorem claim10_insight_precedence (a : ExportedAsset) (tok path : String)
    (h1 : a.insight.isSome = true) (h2 : a.dashboard.isSome = true) :
    chooseTarget a tok =
      some ⟨"/exporter?token=" ++ tok ++ "&legend", ".ExportedInsight", 800⟩ ∧
    (exportToPng (happyEnv Option.none Option.none 600 600 Option.none)
        a tok path initSt).1 = Option.none := by
  constructor
  · simp [chooseTarget, h1]
  · simp [exportToPng, chooseTarget, h1, afterScreenshot, screenshotAsset, screenshotBody,
      happyEnv, St.log, St.quit, St.cleanupTmp, initSt]

/-- C10 witness: a concrete asset with both references set. -/
theorem claim10_insight_precedence_witness :
    chooseTarget ⟨some 1, some 2, "image/png"⟩ "t" =
      some ⟨"/exporter?token=" ++ "t" ++ "&legend", ".ExportedInsight", 800⟩ ∧
    (exportToPng (happyEnv Option.none Option.none 600 600 Option.none)
        ⟨some 1, some 2, "image/png"⟩ "t" "img.png" initSt).1 = Option.none :=
  claim10_insight_precedence ⟨some 1, some 2, "image/png"⟩ "t" "img.png"
    (by decide) (by decide)

/-- C3: any export format other than `"image/png"` raises the
unsupported-format error, and neither `get_driver` nor `_export_to_png` is
ever reached — no browser session is created. -/
theorem claim3_format_gate (env : Env) (a : ExportedAsset) (tok path : String)
    (h : a.export_format ≠ "image/png") :
    (exportImage env a tok path).1 = some Err.unsupportedFormat ∧
    Event.getDriverCall ∉ (exportImage env a tok path).2.events ∧
    Event.enterExportToPng ∉ (exportImage env a tok path).2.events := by
  unfold exportImage
  rw [if_neg h]
  split_ifs <;> simp [St.log, initSt]

/-- C3 witness: a CSV export request in a fully healthy environment. -/
theorem claim3_format_gate_witness :
    (exportImage (happyEnv Option.none Option.none 600 600 Option.none)
        ⟨some 1, Option.none, "text/csv"⟩ "t" "img.png").1 = some Err.unsupportedFormat ∧
    Event.getDriverCall ∉ (exportImage (happyEnv Option.none Option.none 600 600 Option.none)
        ⟨some 1, Option.none, "text/csv"⟩ "t" "img.png").2.events ∧
    Event.enterExportToPng ∉ (exportImage (happyEnv Option.none Option.none 600 600 Option.none)
        ⟨some 1, Option.none, "text/csv"⟩ "t" "img.png").2.events :=
  claim3_format_gate (happyEnv Option.none Option.none 600 600 Option.none)
    ⟨some 1, Option.none, "text/csv"⟩ "t" "img.png" (by decide)

/-- C4: an asset with neither insight nor dashboard set makes
`_export_to_png` raise the missing-target configuration error in its branch
selection, and `_screenshot_asset` (hence `get_driver`) is never invoked —
no browser session is created. -/
theorem claim4_missing_target (env : Env) (a : ExportedAsset) (tok path : String)
    (h1 : a.insight = Option.none) (h2 : a.dashboard = Option.none)
    (h3 : env.siteUrlSet = true) :
    (exportToPng env a tok path initSt).1 = some Err.missingDashboardOrInsight ∧
    Event.getDriverCall ∉ (exportToPng env a tok path initSt).2.events ∧
    Event.enterScreenshotAsset ∉ (exportToPng env a tok path initSt).2.events := by
  unfold exportToPng
  rw [h3]
  simp [chooseTarget, h1, h2, St.log, initSt]

/-- C4 witness: a concrete asset with no insight and no dashboard. -/
theorem claim4_missing_target_witness :
    (exportToPng (happyEnv Option.none Option.none 600 600 Option.none)
        ⟨Option.none, Option.none, "image/png"⟩ "t" "img.png" initSt).1 =
      some Err.missingDashboardOrInsight ∧
    Event.getDriverCall ∉ (exportToPng (happyEnv Option.none Option.none 600 600 Option.none)
        ⟨Option.none, Option.none, "image/png"⟩ "t" "img.png" initSt).2.events ∧
    Event.enterScreenshotAsset ∉
      (exportToPng (happyEnv Option.none Option.none 600 600 Option.none)
        ⟨Option.none, Option.none, "image/png"⟩ "t" "img.png" initSt).2.events :=
  claim4_missing_target (happyEnv Option.none Option.none 600 600 Option.none)
    ⟨Option.none, Option.none, "image/png"⟩ "t" "img.png" rfl rfl rfl

/-- C8: the two-pass sizing algorithm — each measure pass returns
`max(container bounding-box height, document scroll height)` when the
visualization container exists and the scroll height alone otherwise, the
viewport height applied after each pass is the measured height plus the
fixed offset 85, and the two passes are separated by the fixed 500-unit
settle delay. The full event trace of a successful run exhibits the order:
initial resize, navigate, marker wait, first resize at measured height + 85,
settle 500, second resize at re-measured height + 85, capture, teardown. -/
theorem claim8_two_pass_sizing (viz viz2 : Option ℚ) (sh sh2 : ℤ) (table : Option ℤ)
    (p u : String) (w : ℤ) (sel : String) :
    (screenshotAsset (happyEnv viz viz2 sh sh2 table) p u w sel initSt).2.events =
      [Event.enterScreenshotAsset, Event.getDriverCall,
       Event.setWindowSize (w : ℚ) 600, Event.navigate u, Event.waitMarker sel,
       Event.setWindowSize ((computeWidth w (widthScriptResult table) : ℤ) : ℚ)
         (measureHeight viz sh + (HEIGHT_OFFSET : ℚ)),
       Event.sleep 500,
       Event.setWindowSize ((computeWidth w (widthScriptResult table) : ℤ) : ℚ)
         (measureHeight viz2 sh2 + (HEIGHT_OFFSET : ℚ)),
       Event.saveScreenshot p, Event.quit] ∧
    (∀ r : ℚ, ∀ k : ℤ, measureHeight (some r) k = max r (k : ℚ)) ∧
    (∀ k : ℤ, measureHeight Option.none k = (k : ℚ)) ∧
    HEIGHT_OFFSET = 85 := by
  refine ⟨?_, fun r k => rfl, fun k => rfl, rfl⟩
  simp [screenshotAsset, screenshotBody, happyEnv, St.log, St.quit, initSt]

/-- C6: when the bounded spinner wait expires, the timeout is absorbed
locally — in any environment the error outcome of `_screenshot_asset` is the
same whether or not the spinner clears in time, and when everything else
succeeds the run still succeeds: the best-effort diagnostic screenshot and
error report are taken, and execution continues through measurement, both
resizes, the settle delay and the final capture. -/
theorem claim6_spinner_nonfatal (env : Env) (s : St) (viz viz2 : Option ℚ)
    (sh sh2 : ℤ) (table : Option ℤ) (p u : String) (w : ℤ) (sel : String) :
    (screenshotAsset { env with spinnerClears := false } p u w sel s).1 =
      (screenshotAsset { env with spinnerClears := true } p u w sel s).1 ∧
    (screenshotAsset (spinnerTimeoutEnv viz viz2 sh sh2 table) p u w sel initSt).1 =
      Option.none ∧
    (screenshotAsset (spinnerTimeoutEnv viz viz2 sh sh2 table) p u w sel initSt).2.events =
      [Event.enterScreenshotAsset, Event.getDriverCall,
       Event.setWindowSize (w : ℚ) 600, Event.navigate u, Event.waitMarker sel,
       Event.saveScreenshot p, Event.attachScreenshot, Event.captureException,
       Event.setWindowSize ((computeWidth w (widthScriptResult table) : ℤ) : ℚ)
         (measureHeight viz sh + (HEIGHT_OFFSET : ℚ)),
       Event.sleep 500,
       Event.setWindowSize ((computeWidth w (widthScriptResult table) : ℤ) : ℚ)
         (measureHeight viz2 sh2 + (HEIGHT_OFFSET : ℚ)),
       Event.saveScreenshot p, Event.quit] := by
  refine ⟨?_, ?_, ?_⟩
  · rw [screenshotAsset_fst, screenshotAsset_fst]
    rfl
  · simp [screenshotAsset, screenshotBody, spinnerTimeoutEnv, St.log, St.quit, initSt]
  · simp [screenshotAsset, screenshotBody, spinnerTimeoutEnv, St.log, St.quit, initSt]

/-- C2: on every execution path of `_export_to_png` — success, any raising
stage, or failure before the browser starts — the temporary image file does
not exist in the final state, and `driver.quit()` has been invoked exactly
once when a browser session was acquired and never otherwise. -/
theorem claim2_cleanup_totality (env : Env) (a : ExportedAsset) (tok path : String) :
    (exportToPng env a tok path initSt).2.tmpFileExists = false ∧
    (exportToPng env a tok path initSt).2.quitCount =
      (if (exportToPng env a tok path initSt).2.driverAcquired then 1 else 0) := by
  unfold exportToPng
  cases hsu : env.siteUrlSet with
  | false => simp [St.log, initSt]
  | true =>
    simp only [if_true]
    rcases hct : chooseTarget a tok with _ | target
    · simp [St.log, initSt]
    · have hq := screenshotAsset_quitCount env path target.url_to_render
        target.screenshot_width target.wait_for_css_selector
          (initSt.log Event.enterExportToPng)
      have hd := screenshotAsset_driverAcquired env path target.url_to_render
        target.screenshot_width target.wait_for_css_selector
          (initSt.log Event.enterExportToPng)
      refine ⟨afterScreenshot_tmpFileExists _ _, ?_⟩
      rw [afterScreenshot_quitCount, afterScreenshot_driverAcquired, hq, hd]
      cases env.getDriverOk <;> simp [St.log, initSt]

/-- C7: the failure-diagnostics path is transparent — the error outcome of
`_screenshot_asset` (including success) is unchanged under any combination of
success and failure of the individually wrapped diagnostic actions, and when
the body raises an exception the very same exception is the one
`_screenshot_asset` re-raises. -/
theorem claim7_diagnostics_transparent (env : Env) (logOk shotOk : Bool)
    (p u : String) (w : ℤ) (sel : String) (s s' : St) :
    (screenshotAsset (withDiag env logOk shotOk) p u w sel s).1 =
      (screenshotAsset env p u w sel s).1 ∧
    (∀ e : Err, env.getDriverOk = true →
      (screenshotBody env p u w sel s').1 = some e →
      (screenshotAsset env p u w sel s).1 = some e) := by
  constructor
  · rw [screenshotAsset_fst, screenshotAsset_fst]
    rfl
  · intro e hg hb
    rw [screenshotBody_fst] at hb
    simp [screenshotAsset_fst, hg, hb]

/-- C7 witness: a navigation failure with the console-log diagnostic failing
and the screenshot diagnostic succeeding still surfaces exactly the
navigation error. -/
theorem claim7_diagnostics_transparent_witness :
    (screenshotAsset
        (withDiag { happyEnv Option.none Option.none 600 600 Option.none with
          navOk := false } false true) "p" "u" 800 ".x" initSt).1 =
      (screenshotAsset { happyEnv Option.none Option.none 600 600 Option.none with
          navOk := false } "p" "u" 800 ".x" initSt).1 ∧
    (screenshotAsset { happyEnv Option.none Option.none 600 600 Option.none with
        navOk := false } "p" "u" 800 ".x" initSt).1 = some Err.navError :=
  ⟨(claim7_diagnostics_transparent
      { happyEnv Option.none Option.none 600 600 Option.none with navOk := false }
      false true "p" "u" 800 ".x" initSt initSt).1,
   (claim7_diagnostics_transparent
      { happyEnv Option.none Option.none 600 600 Option.none with navOk := false }
      false true "p" "u" 800 ".x" initSt initSt).2 Err.navError rfl
     (by simp [screenshotBody, happyEnv, St.log])⟩

end ImageExporter
